import Mathlib

/-!
Verification development for the Target Classification & Actor Dispatch layer
of the social-media lead-generation scraper (`src/agent-actor/src/`).

Python dictionaries are modelled as association lists `List (String × Json)`
with unique keys (Python dicts cannot hold duplicate keys); `lookup` models
`dict.get`, `setKey` models `d[k] = v` (replacing the first occurrence of the
key in place, appending otherwise, which preserves Python's insertion-order
semantics), and `dictUnion x y` models the expression `{**x, **y}`.

Python string helpers (`str.strip`, `str.startswith`, `str.lstrip`,
`str.lower`, `str.upper`, `str.split`) are modelled on the character list
underlying a `String`.
-/

namespace Scraper

/-- JSON-like values exchanged with the remote actor service, mirroring the
Python `Any` values held in actor inputs and run envelopes.  Objects are
insertion-ordered association lists, as in Python. -/
inductive Json where
  | null : Json
  | bool (b : Bool) : Json
  | num (n : Int) : Json
  | str (s : String) : Json
  | arr (elems : List Json) : Json
  | obj (entries : List (String × Json)) : Json

/-- Association-list model of a Python `Dict[str, Any]`. -/
abbrev Dict := List (String × Json)

/-- Model of `str.strip()`: drop leading and trailing whitespace characters. -/
def pyStrip (s : String) : String :=
  ⟨((s.data.dropWhile Char.isWhitespace).reverse.dropWhile Char.isWhitespace).reverse⟩

/-- Model of `s.startswith(pre)`. -/
def pyStartsWith (s pre : String) : Bool :=
  pre.data.isPrefixOf s.data

/-- Model of `s.lstrip(c)` for a single-character strip set: remove every
leading occurrence of `c`. -/
def pyLstrip (s : String) (c : Char) : String :=
  ⟨s.data.dropWhile (fun d => d = c)⟩

/-- Model of `s.lower()`. -/
def pyLower (s : String) : String := ⟨s.data.map Char.toLower⟩

/-- Model of `s.upper()`. -/
def pyUpper (s : String) : String := ⟨s.data.map Char.toUpper⟩

/-- Split a character list at every occurrence of `c` (model of `s.split(c)`,
which yields `[""]` on the empty string). -/
def splitOnChar (c : Char) : List Char → List (List Char)
  | [] => [[]]
  | x :: xs =>
    if x = c then [] :: splitOnChar c xs
    else
      match splitOnChar c xs with
      | [] => [[x]]
      | h :: t => (x :: h) :: t

/-- Model of `s.split(",")` returning strings. -/
def pySplit (s : String) (c : Char) : List String :=
  (splitOnChar c s.data).map (fun l => ⟨l⟩)

/-- Model of `d.get(k)` (with no default): the value at the first occurrence
of the key, `none` when the key is missing. -/
def lookup : Dict → String → Option Json
  | [], _ => none
  | (k', v') :: rest, k => if k' = k then some v' else lookup rest k

/-- Model of `d[k] = v`: replace the value at the first occurrence of the key,
append the pair when the key is missing (Python keeps the key's insertion
position on overwrite). -/
def setKey : Dict → String → Json → Dict
  | [], k, v => [(k, v)]
  | (k', v') :: rest, k, v =>
    if k' = k then (k, v) :: rest else (k', v') :: setKey rest k v

/-- Model of `k in d`. -/
def hasKey (d : Dict) (k : String) : Bool := (lookup d k).isSome

/-- Model of `{**x, **y}`: start from `x` and write every entry of `y`. -/
def dictUnion (x y : Dict) : Dict :=
  y.foldl (fun acc p => setKey acc p.1 p.2) x

/-- Python truthiness (`if value:`) for the Json values the code inspects:
`None`, `False`, `0`, `""`, `[]` and `{}` are falsy. -/
def pyTruthy : Json → Bool
  | Json.null => false
  | Json.bool b => b
  | Json.num n => n != 0
  | Json.str s => !s.data.isEmpty
  | Json.arr l => !l.isEmpty
  | Json.obj l => !l.isEmpty

/-- One iteration of the loop body of `merge_inputs`
(`src/agent-actor/src/tools/base.py:21-25`): when both the override value and
the current value are mappings they are merged one level via `{**merged[key],
**value}`, otherwise the override value replaces the current value outright. -/
def mergeStep (merged : Dict) (kv : String × Json) : Dict :=
  match kv.2, lookup merged kv.1 with
  | Json.obj ov, some (Json.obj bv) => setKey merged kv.1 (Json.obj (dictUnion bv ov))
  | v, _ => setKey merged kv.1 v

/-- The value `merge_inputs` stores for an override entry, as a function of
the current value at that key. -/
def mergeVal (cur : Option Json) (v : Json) : Json :=
  match v, cur with
  | Json.obj ov, some (Json.obj bv) => Json.obj (dictUnion bv ov)
  | v, _ => v

/-- Model of `merge_inputs(base, overrides)`
(`src/agent-actor/src/tools/base.py:16-26`).  `overrides` is `Option Dict`
because the Python parameter is `Optional[Dict]`; the code's falsy check
(`if not overrides`) returns a copy of `base` for both `None` and `{}`, and
folding an empty list likewise returns `base`. -/
def merge_inputs (base : Dict) (overrides : Option Dict) : Dict :=
  match overrides with
  | none => base
  | some ovs => ovs.foldl mergeStep base

/-- Python `x or y` over optional environment strings: `None` and `""` are
falsy and fall through to the right operand. -/
def pyOrStr (a : Option String) (b : Option String) : Option String :=
  match a with
  | some s => if s.data.isEmpty then b else some s
  | none => b

/-- The environment-derived proxy policy read by
`BasePlatformTool._default_proxy_configuration`
(`src/agent-actor/src/tools/base.py:93-123`), one optional string per
environment variable.  The per-call `uuid.uuid4().hex` draw is modelled as the
injected `uuid_hex` field (spec section 9 directs isolating the randomness
behind an injectable generator). -/
structure ProxyEnv where
  use_proxy : Option String
  groups : Option String
  country_code : Option String
  country : Option String
  session_mode : Option String
  session_pfx : Option String
  uuid_hex : String

/-- Model of `BasePlatformTool._default_proxy_configuration`
(`src/agent-actor/src/tools/base.py:93-123`).  Returns `none` when proxying is
disabled or the group list is empty; otherwise the proxy configuration
mapping. -/
def default_proxy_configuration (platform : String) (env : ProxyEnv) : Option Dict :=
  let use_proxy := pyLower (pyStrip (env.use_proxy.getD "true"))
  if use_proxy = "0" ∨ use_proxy = "false" ∨ use_proxy = "no" ∨ use_proxy = "off" then
    none
  else
    let groups :=
      match env.groups with
      | some raw => ((pySplit raw ',').map pyStrip).filter (fun g : String => !g.data.isEmpty)
      | none => ["RESIDENTIAL"]
    if groups.isEmpty then
      none
    else
      let conf : Dict :=
        [("useApifyProxy", Json.bool true), ("groups", Json.arr (groups.map Json.str))]
      let conf :=
        match pyOrStr env.country_code env.country with
        | some c => if c.data.isEmpty then conf else conf ++ [("countryCode", Json.str (pyUpper (pyStrip c)))]
        | none => conf
      let session_mode := pyLower (pyStrip ((pyOrStr env.session_mode (some "rotate")).getD "rotate"))
      let conf :=
        if session_mode = "sticky" then
          let pfx := pyStrip ((pyOrStr env.session_pfx (some platform)).getD platform)
          let pfx := if pfx.data.isEmpty then platform else pfx
          conf ++ [("session", Json.str (pfx ++ "-" ++ env.uuid_hex))]
        else conf
      some conf

/-- Model of the proxy-injection step shared by `BasePlatformTool._run`
(`src/agent-actor/src/tools/base.py:180-183`), `InstagramScraperTool._dispatch`
(`src/agent-actor/src/tools/instagram.py:51-54`) and the Instagram fallback
path: when the built request does not already contain the key
`proxyConfiguration`, the default proxy configuration is injected provided it
is truthy (not `None` and not the empty mapping). -/
def applyProxyStep (run_input : Dict) (platform : String) (env : ProxyEnv) : Dict :=
  if hasKey run_input "proxyConfiguration" then run_input
  else
    match default_proxy_configuration platform env with
    | some pc => if pc.isEmpty then run_input else setKey run_input "proxyConfiguration" (Json.obj pc)
    | none => run_input

/-- Model of `run.get(k)` as seen from the Python side, where a JSON `null`
value and a missing key are both Python `None`. -/
def pyGet (r : Dict) (k : String) : Json := (lookup r k).getD Json.null

/-- Python `x or y` on Json values. -/
def pyOr (a b : Json) : Json := if pyTruthy a then a else b

/-- The `dataset_id` expression of `_call_actor`
(`src/agent-actor/src/tools/base.py:139-144`): the Python `or`-chain over the
four alias keys, which yields the first truthy value, or the last alias's
(falsy) value when none is truthy. -/
def datasetChain (r : Dict) : Json :=
  pyOr (pyGet r "defaultDatasetId")
    (pyOr (pyGet r "default_dataset_id")
      (pyOr (pyGet r "datasetId") (pyGet r "outputDatasetId")))

def callActorOutputBranch (r : Dict) : Json :=
  match (lookup r "output").getD (Json.obj []) with
  | Json.obj o =>
    if hasKey o "items" then pyOr (pyGet o "items") (Json.arr []) else Json.arr []
  | _ => Json.arr []

/-- Model of `BasePlatformTool._call_actor`
(`src/agent-actor/src/tools/base.py:125-164`) after the remote call returned
the run envelope `run` (`none` models a `None` run object; a present empty
mapping is also falsy under the guard `if not run`).  `fetch` models
`self._client.dataset(d).list_items(clean=True).items`, with `none` standing
for a `None` items attribute.  The returned value is whatever the Python
function returns; every structured exit wraps a list in `Json.arr`, while the
`run.get('items')` branch returns the stored value verbatim, as the code does
(a stored JSON `null` is Python `None` and fails the `is not None` guard). -/
def call_actor (run : Option Dict) (fetch : Json → Option (List Json)) : Json :=
  match run with
  | none => Json.arr []
  | some r =>
    if r.isEmpty then Json.arr []
    else
      let dataset_id := datasetChain r
      if pyTruthy dataset_id then
        Json.arr ((fetch dataset_id).getD [])
      else
        match lookup r "items" with
        | some Json.null => callActorOutputBranch r
        | some v => v
        | none => callActorOutputBranch r

/-- A JSON array of strings. -/
def strArr (l : List String) : Json := Json.arr (l.map Json.str)

/-- Four classification buckets (direct URLs, handles, hashtags, free-text),
the shape returned by `InstagramScraperTool._categorize_targets` and built by
the TikTok classification loop. -/
structure Buckets4 where
  urls : List String
  handles : List String
  hashtags : List String
  terms : List String

/-- Model of `InstagramScraperTool._categorize_targets`
(`src/agent-actor/src/tools/instagram.py:22-40`): strip each target, skip the
ones that strip to the empty string, then first-match on the `http`, `@`, `#`
prefixes, appending to the matching bucket (structural recursion with cons
preserves the loop's append order). -/
def instagram_categorize : List String → Buckets4
  | [] => ⟨[], [], [], []⟩
  | t :: ts =>
    let rest := instagram_categorize ts
    let stripped := pyStrip t
    if stripped.data.isEmpty then rest
    else if pyStartsWith stripped "http" then { rest with urls := stripped :: rest.urls }
    else if pyStartsWith stripped "@" then { rest with handles := pyLstrip stripped '@' :: rest.handles }
    else if pyStartsWith stripped "#" then { rest with hashtags := pyLstrip stripped '#' :: rest.hashtags }
    else { rest with terms := stripped :: rest.terms }

/-- Model of `InstagramScraperTool._base_payload`
(`src/agent-actor/src/tools/instagram.py:42-47`). -/
def instagram_base_payload (max_items : Int) (include_contact_info : Bool) : Dict :=
  let payload : Dict := [("maxItems", Json.num max_items)]
  if include_contact_info then payload ++ [("addUserInfo", Json.bool true)] else payload

/-- The URL/handle/hashtag part of the Instagram payload: the base payload
followed by the `directUrls`, `usernames`, `hashtags` keys, each set only when
its bucket is non-empty (`src/agent-actor/src/tools/instagram.py:66-71` and
`91-97`, which build this payload identically). -/
def instagram_profile_payload (c : Buckets4) (max_items : Int) (include_contact_info : Bool) : Dict :=
  let base := instagram_base_payload max_items include_contact_info
  let base := if c.urls.isEmpty then base else base ++ [("directUrls", strArr c.urls)]
  let base := if c.handles.isEmpty then base else base ++ [("usernames", strArr c.handles)]
  if c.hashtags.isEmpty then base else base ++ [("hashtags", strArr c.hashtags)]

/-- The pre-merge Instagram run input: the profile payload, then `search` set
to the first free-text query when one exists
(`src/agent-actor/src/tools/instagram.py:64-74`). -/
def instagram_base_input (targets : List String) (max_items : Int)
    (include_contact_info : Bool) : Dict :=
  let c := instagram_categorize targets
  match c.terms with
  | [] => instagram_profile_payload c max_items include_contact_info
  | q :: _ => instagram_profile_payload c max_items include_contact_info ++ [("search", Json.str q)]

/-- Model of `InstagramScraperTool._build_run_input`
(`src/agent-actor/src/tools/instagram.py:57-75`): the profile payload, then
`search` set to the first free-text query when one exists, merged with the
overrides. -/
def instagram_build_run_input (targets : List String) (max_items : Int)
    (include_contact_info : Bool) (overrides : Option Dict) : Dict :=
  merge_inputs (instagram_base_input targets max_items include_contact_info) overrides

/-- The pre-merge Facebook run input
(`src/agent-actor/src/tools/facebook.py:26-37`). -/
def facebook_base_input (targets : List String) (max_items : Int)
    (include_contact_info : Bool) : Dict :=
  let start_urls :=
    ((targets.map pyStrip).filter (fun t => pyStartsWith t "http")).map
      (fun u => Json.obj [("url", Json.str u)])
  let search_terms := (targets.map pyStrip).filter (fun t => !pyStartsWith t "http")
  let base : Dict := [("maxItems", Json.num max_items)]
  let base := if start_urls.isEmpty then base else base ++ [("startUrls", Json.arr start_urls)]
  let base := if search_terms.isEmpty then base else base ++ [("searchTerms", strArr search_terms)]
  if include_contact_info then base ++ [("shouldDownloadVideos", Json.bool false)] else base

/-- Model of `FacebookScraperTool._build_run_input`
(`src/agent-actor/src/tools/facebook.py:23-41`). -/
def facebook_build_run_input (targets : List String) (max_items : Int)
    (include_contact_info : Bool) (overrides : Option Dict) : Dict :=
  merge_inputs (facebook_base_input targets max_items include_contact_info) overrides

/-- Model of the classification loop of `TikTokScraperTool._build_run_input`
(`src/agent-actor/src/tools/tiktok.py:28-42`): the same first-match prefix
rules as Instagram, but with no skip of targets that strip to the empty
string — those fall through to the keywords bucket. -/
def tiktok_categorize : List String → Buckets4
  | [] => ⟨[], [], [], []⟩
  | t :: ts =>
    let rest := tiktok_categorize ts
    let stripped := pyStrip t
    if pyStartsWith stripped "http" then { rest with urls := stripped :: rest.urls }
    else if pyStartsWith stripped "@" then { rest with handles := pyLstrip stripped '@' :: rest.handles }
    else if pyStartsWith stripped "#" then { rest with hashtags := pyLstrip stripped '#' :: rest.hashtags }
    else { rest with terms := stripped :: rest.terms }

/-- The pre-merge TikTok run input
(`src/agent-actor/src/tools/tiktok.py:44-54`). -/
def tiktok_base_input (targets : List String) (max_items : Int)
    (include_contact_info : Bool) : Dict :=
  let c := tiktok_categorize targets
  let base : Dict := [("maxItems", Json.num max_items)]
  let base :=
    if c.urls.isEmpty then base
    else base ++ [("startUrls", Json.arr (c.urls.map (fun u => Json.obj [("url", Json.str u)])))]
  let base := if c.handles.isEmpty then base else base ++ [("handles", strArr c.handles)]
  let base := if c.hashtags.isEmpty then base else base ++ [("hashtags", strArr c.hashtags)]
  let base := if c.terms.isEmpty then base else base ++ [("searchTerms", strArr c.terms)]
  if include_contact_info then base ++ [("shouldDownloadCaptions", Json.bool true)] else base

/-- Model of `TikTokScraperTool._build_run_input`
(`src/agent-actor/src/tools/tiktok.py:22-56`). -/
def tiktok_build_run_input (targets : List String) (max_items : Int)
    (include_contact_info : Bool) (overrides : Option Dict) : Dict :=
  merge_inputs (tiktok_base_input targets max_items include_contact_info) overrides

/-- Two classification buckets (handles, queries), the shape built by the
Twitter classification loop. -/
structure Buckets2 where
  handles : List String
  queries : List String

/-- Model of the classification loop of `TwitterScraperTool._build_run_input`
(`src/agent-actor/src/tools/twitter.py:30-36`): `@`-prefixed targets become
handles (marker stripped), everything else — URLs, hashtags, empty strings
included — becomes a query. -/
def twitter_categorize : List String → Buckets2
  | [] => ⟨[], []⟩
  | t :: ts =>
    let rest := twitter_categorize ts
    let stripped := pyStrip t
    if pyStartsWith stripped "@" then { rest with handles := pyLstrip stripped '@' :: rest.handles }
    else { rest with queries := stripped :: rest.queries }

/-- The pre-merge Twitter run input
(`src/agent-actor/src/tools/twitter.py:38-46`). -/
def twitter_base_input (targets : List String) (max_items : Int)
    (include_contact_info : Bool) : Dict :=
  let c := twitter_categorize targets
  let base : Dict := [("maxItems", Json.num max_items)]
  let base := if c.handles.isEmpty then base else base ++ [("handles", strArr c.handles)]
  let base := if c.queries.isEmpty then base else base ++ [("queries", strArr c.queries)]
  if include_contact_info then base ++ [("includeRetweet", Json.bool true)] else base

/-- Model of `TwitterScraperTool._build_run_input`
(`src/agent-actor/src/tools/twitter.py:22-48`). -/
def twitter_build_run_input (targets : List String) (max_items : Int)
    (include_contact_info : Bool) (overrides : Option Dict) : Dict :=
  merge_inputs (twitter_base_input targets max_items include_contact_info) overrides

/-- The pre-merge LinkedIn run input
(`src/agent-actor/src/tools/linkedin.py:29-34`): `profileUrls` is the list of
stripped URL-prefixed targets, falling back to the raw target list verbatim
when that filter is empty (`profile_urls or targets`); `maxDepth` is fixed at
1 and `maxItems` is set last. -/
def linkedin_base_input (targets : List String) (max_items : Int)
    (include_contact_info : Bool) : Dict :=
  let profile_urls := (targets.map pyStrip).filter (fun t => pyStartsWith t "http")
  let base : Dict :=
    [("profileUrls", strArr (if profile_urls.isEmpty then targets else profile_urls)),
     ("maxDepth", Json.num 1)]
  let base := if include_contact_info then base ++ [("shouldFetchContact", Json.bool true)] else base
  base ++ [("maxItems", Json.num max_items)]

/-- Model of `LinkedInScraperTool._build_run_input`
(`src/agent-actor/src/tools/linkedin.py:22-36`). -/
def linkedin_build_run_input (targets : List String) (max_items : Int)
    (include_contact_info : Bool) (overrides : Option Dict) : Dict :=
  merge_inputs (linkedin_base_input targets max_items include_contact_info) overrides

/-- The five supported platforms (`PlatformName` in
`src/agent-actor/src/models.py:13-20`). -/
inductive PlatformName where
  | instagram
  | facebook
  | tiktok
  | twitter
  | linkedin
  deriving DecidableEq

/-- The string value of each platform enum member. -/
def platformValue : PlatformName → String
  | .instagram => "instagram"
  | .facebook => "facebook"
  | .tiktok => "tiktok"
  | .twitter => "twitter"
  | .linkedin => "linkedin"

/-- Model of validating the `platform` field of `PlatformTargetConfig`
(`src/agent-actor/src/models.py:22-26`): a raw string resolves to a
`PlatformName` member, or fails validation. -/
def parsePlatform (s : String) : Option PlatformName :=
  if s = "instagram" then some .instagram
  else if s = "facebook" then some .facebook
  else if s = "tiktok" then some .tiktok
  else if s = "twitter" then some .twitter
  else if s = "linkedin" then some .linkedin
  else none

/-- Dispatch to the per-platform request builder
(`BasePlatformTool._build_run_input` overridden in each subclass). -/
def build_run_input (p : PlatformName) (targets : List String) (max_items : Int)
    (include_contact_info : Bool) (overrides : Option Dict) : Dict :=
  match p with
  | .instagram => instagram_build_run_input targets max_items include_contact_info overrides
  | .facebook => facebook_build_run_input targets max_items include_contact_info overrides
  | .tiktok => tiktok_build_run_input targets max_items include_contact_info overrides
  | .twitter => twitter_build_run_input targets max_items include_contact_info overrides
  | .linkedin => linkedin_build_run_input targets max_items include_contact_info overrides

/-- The pre-merge run input of the platform's request builder. -/
def base_input (p : PlatformName) (targets : List String) (max_items : Int)
    (include_contact_info : Bool) : Dict :=
  match p with
  | .instagram => instagram_base_input targets max_items include_contact_info
  | .facebook => facebook_base_input targets max_items include_contact_info
  | .tiktok => tiktok_base_input targets max_items include_contact_info
  | .twitter => twitter_base_input targets max_items include_contact_info
  | .linkedin => linkedin_base_input targets max_items include_contact_info

/-- Model of the request-construction part of `BasePlatformTool._run`
(`src/agent-actor/src/tools/base.py:167-184`): build the run input, then
inject the default proxy configuration only when the key
`proxyConfiguration` is not already present. -/
def run_request (p : PlatformName) (targets : List String) (max_items : Int)
    (include_contact_info : Bool) (overrides : Option Dict) (env : ProxyEnv) : Dict :=
  applyProxyStep (build_run_input p targets max_items include_contact_info overrides)
    (platformValue p) env

/-- Validation of a platform tool call against `PlatformToolInput`
(`src/agent-actor/src/tools/base.py:32-48`): `targets` has `min_items=1`, and
`max_items` carries `ge=1, le=500`.  The framework validates the arguments
against this schema before `_run` executes. -/
def validPlatformToolInput (targets : List String) (max_items : Int) : Bool :=
  1 ≤ targets.length && 1 ≤ max_items && max_items ≤ 500

/-- The caller-facing `scrape` surface: pydantic validation of the arguments
followed by the request construction of `BasePlatformTool._run`.  On a
validation failure the call fails before any request is built or dispatched;
on success the run input that `_call_actor` would receive is produced. -/
def scrape (p : PlatformName) (targets : List String) (max_items : Int)
    (include_contact_info : Bool) (overrides : Option Dict) (env : ProxyEnv) :
    Except String Dict :=
  if !validPlatformToolInput targets max_items then
    Except.error "ValidationError"
  else
    Except.ok (run_request p targets max_items include_contact_info overrides env)

/-- Model of `InstagramScraperTool._dispatch`
(`src/agent-actor/src/tools/instagram.py:49-55`), up to the request handed to
`_call_actor`: merge the payload with the overrides and inject the default
proxy configuration when absent. -/
def instagram_dispatch_input (payload : Dict) (overrides : Dict) (env : ProxyEnv) : Dict :=
  applyProxyStep (merge_inputs payload (some overrides)) "instagram" env

/-- Model of `InstagramScraperTool._run`
(`src/agent-actor/src/tools/instagram.py:78-119`), the fan-out path.  `callA`
models `_call_actor` as the resolved record sequence returned for a given run
input.  The result is the ordered list of run inputs handed to `_call_actor`
together with the records returned to the caller: one combined invocation
when any of the URL/handle/hashtag buckets is non-empty, then one invocation
per free-text query, concatenating results in that order; when the
accumulated `results` list is empty (`if results:` fails), a final fallback
invocation through `_build_run_input` is issued and its records returned. -/
def instagram_run (targets : List String) (max_items : Int) (include_contact_info : Bool)
    (input_overrides : Option Dict) (env : ProxyEnv) (callA : Dict → List Json) :
    List Dict × List Json :=
  let c := instagram_categorize targets
  let overrides : Dict := input_overrides.getD []
  let phase1 : List Dict :=
    (if !c.urls.isEmpty || !c.handles.isEmpty || !c.hashtags.isEmpty then
      [instagram_dispatch_input (instagram_profile_payload c max_items include_contact_info)
        overrides env]
    else [])
    ++ c.terms.map (fun q =>
        instagram_dispatch_input
          (instagram_base_payload max_items include_contact_info ++ [("search", Json.str q)])
          overrides env)
  let results := (phase1.map callA).flatten
  if !results.isEmpty then (phase1, results)
  else
    let fallback_payload :=
      applyProxyStep (instagram_build_run_input targets max_items include_contact_info
        (some overrides)) "instagram" env
    (phase1 ++ [fallback_payload], callA fallback_payload)

/-- The tool classes instantiated by the dispatch router. -/
inductive ToolClass where
  | instagramTool
  | facebookTool
  | tiktokTool
  | twitterTool
  | linkedinTool
  deriving DecidableEq

/-- Model of the `TOOL_BUILDERS` mapping
(`src/agent-actor/src/main.py:39-45`): every platform enum member has a tool
class. -/
def TOOL_BUILDERS : List (PlatformName × ToolClass) :=
  [(.instagram, .instagramTool), (.facebook, .facebookTool), (.tiktok, .tiktokTool),
   (.twitter, .twitterTool), (.linkedin, .linkedinTool)]

/-- Model of `TOOL_BUILDERS.get(platform)`. -/
def toolBuildersGet (p : PlatformName) : Option ToolClass :=
  (TOOL_BUILDERS.find? (fun q => q.1 = p)).map Prod.snd

/-- Model of the platform-validation loop of `main`
(`src/agent-actor/src/main.py:73-79`): configurations are validated in order
and the first invalid platform name raises
`ValueError('Invalid platform configuration: ...')`, aborting the batch. -/
def parseAllPlatforms : List String → Except String (List PlatformName)
  | [] => Except.ok []
  | r :: rs =>
    match parsePlatform r with
    | none => Except.error ("Invalid platform configuration: " ++ r)
    | some p => (parseAllPlatforms rs).map (fun ps => p :: ps)

/-- Model of Python `set` deduplication of the validated platforms
(`unique_platforms = set(requested_platforms)` in
`src/agent-actor/src/main.py:81`); Python set iteration order is unspecified,
so only membership in the result is meaningful. -/
def dedupPlats : List PlatformName → List PlatformName
  | [] => []
  | p :: ps =>
    let r := dedupPlats ps
    if p ∈ r then r else p :: r

/-- Model of the platform-resolution segment of `main`
(`src/agent-actor/src/main.py:70-94`): reject an empty platform list, validate
every configuration (first failure aborts), deduplicate the validated
platforms (Python builds a `set`; iteration order is unspecified there, so
only membership is meaningful), skip platforms missing from `TOOL_BUILDERS`
(with a warning), and fail when no tool was instantiated. -/
def resolve_tools (raw_platforms : List String) : Except String (List ToolClass) :=
  if raw_platforms.isEmpty then
    Except.error "At least one platform configuration is required."
  else
    match parseAllPlatforms raw_platforms with
    | Except.error e => Except.error e
    | Except.ok ps =>
      let tools := (dedupPlats ps).filterMap toolBuildersGet
      if tools.isEmpty then
        Except.error "No tools available for the requested platforms."
      else
        Except.ok tools

/-- The keys of a dictionary are pairwise distinct.  Python dictionaries
always satisfy this; it is a side condition of the association-list model. -/
abbrev NodupKeys (d : Dict) : Prop := (d.map Prod.fst).Nodup

/-- A value that is a mapping has pairwise-distinct keys (true of every value
produced by Python); non-mapping values satisfy this trivially. -/
def objKeysNodup : Json → Bool
  | Json.obj o => decide (NodupKeys o)
  | _ => true

/-- The first of the four dataset-id aliases of a run envelope that holds a
truthy value, per the amended resolution claim.  `truthyAt` is the lookup
filtered by Python truthiness. -/
def truthyAt (r : Dict) (k : String) : Option Json :=
  match lookup r k with
  | some v => if pyTruthy v then some v else none
  | none => none

/-- Ordered dataset-id alias resolution: `defaultDatasetId`, then
`default_dataset_id`, then `datasetId`, then `outputDatasetId`, first truthy
value wins. -/
def datasetIdOf (r : Dict) : Option Json :=
  match truthyAt r "defaultDatasetId" with
  | some v => some v
  | none =>
    match truthyAt r "default_dataset_id" with
    | some v => some v
    | none =>
      match truthyAt r "datasetId" with
      | some v => some v
      | none => truthyAt r "outputDatasetId"

/-- Per-target Instagram classifier, claim form: the bucket value assigned to
one raw target by the strip/skip/first-match rules, `none` when the target is
skipped or lands in another bucket.  `igUrlOf` is the direct-URL bucket. -/
def igUrlOf (t : String) : Option String :=
  let s := pyStrip t
  if s.data.isEmpty then none
  else if pyStartsWith s "http" then some s
  else none

/-- Instagram handle bucket, per-target claim form. -/
def igHandleOf (t : String) : Option String :=
  let s := pyStrip t
  if s.data.isEmpty then none
  else if pyStartsWith s "http" then none
  else if pyStartsWith s "@" then some (pyLstrip s '@')
  else none

/-- Instagram hashtag bucket, per-target claim form. -/
def igTagOf (t : String) : Option String :=
  let s := pyStrip t
  if s.data.isEmpty then none
  else if pyStartsWith s "http" then none
  else if pyStartsWith s "@" then none
  else if pyStartsWith s "#" then some (pyLstrip s '#')
  else none

/-- Instagram free-text bucket, per-target claim form. -/
def igTermOf (t : String) : Option String :=
  let s := pyStrip t
  if s.data.isEmpty then none
  else if pyStartsWith s "http" then none
  else if pyStartsWith s "@" then none
  else if pyStartsWith s "#" then none
  else some s

/-- TikTok direct-URL bucket, per-target claim form (no empty-target skip). -/
def ttUrlOf (t : String) : Option String :=
  let s := pyStrip t
  if pyStartsWith s "http" then some s else none

/-- TikTok handle bucket, per-target claim form. -/
def ttHandleOf (t : String) : Option String :=
  let s := pyStrip t
  if pyStartsWith s "http" then none
  else if pyStartsWith s "@" then some (pyLstrip s '@')
  else none

/-- TikTok hashtag bucket, per-target claim form. -/
def ttTagOf (t : String) : Option String :=
  let s := pyStrip t
  if pyStartsWith s "http" then none
  else if pyStartsWith s "@" then none
  else if pyStartsWith s "#" then some (pyLstrip s '#')
  else none

/-- TikTok keyword bucket, per-target claim form: everything else, including
targets that strip to the empty string. -/
def ttTermOf (t : String) : Option String :=
  let s := pyStrip t
  if pyStartsWith s "http" then none
  else if pyStartsWith s "@" then none
  else if pyStartsWith s "#" then none
  else some s

/-- Twitter handle bucket, per-target claim form. -/
def twHandleOf (t : String) : Option String :=
  let s := pyStrip t
  if pyStartsWith s "@" then some (pyLstrip s '@') else none

/-- Twitter query bucket, per-target claim form. -/
def twQueryOf (t : String) : Option String :=
  let s := pyStrip t
  if pyStartsWith s "@" then none else some s

/-- A proxy-disabled environment (`APIFY_USE_PROXY=false`), used for concrete
evaluations. -/
def envOff : ProxyEnv := ⟨some "false", none, none, none, none, none, "0f0f"⟩

/-- A sticky-session proxy environment with a country code, used for concrete
evaluations. -/
def envSticky : ProxyEnv :=
  ⟨none, none, some "us", none, some "sticky", some "lead", "abcd1234"⟩

/-- The Instagram fan-out example targets of the spec. -/
def exampleTargets : List String := ["https://x.com/a", "@bob", "#deals", "shoes"]

/-- The combined URL/handle/hashtag run input the fan-out issues first for
`exampleTargets`. -/
def exampleCall1 : Dict :=
  instagram_dispatch_input
    (instagram_profile_payload (instagram_categorize exampleTargets) 10 true) [] envOff

/-- The free-text run input the fan-out issues for the query `shoes`. -/
def exampleCall2 : Dict :=
  instagram_dispatch_input
    (instagram_base_payload 10 true ++ [("search", Json.str "shoes")]) [] envOff

/-- The fallback run input issued when the accumulated results are empty. -/
def exampleFallback : Dict :=
  applyProxyStep (instagram_build_run_input exampleTargets 10 true (some []))
    "instagram" envOff

theorem lookup_setKey_self (d : Dict) (k : String) (v : Json) :
    lookup (setKey d k v) k = some v := by
  induction d with
  | nil => simp [setKey, lookup]
  | cons p rest ih =>
    obtain ⟨k', v'⟩ := p
    by_cases h : k' = k
    · simp [setKey, h, lookup]
    · simp [setKey, h, lookup, ih]

theorem lookup_setKey_ne (d : Dict) (k k' : String) (v : Json) (h : k' ≠ k) :
    lookup (setKey d k v) k' = lookup d k' := by
  induction d with
  | nil => simp [setKey, lookup, Ne.symm h]
  | cons p rest ih =>
    obtain ⟨a, b⟩ := p
    by_cases ha : a = k
    · subst ha
      simp [setKey, lookup, Ne.symm h]
    · simp [setKey, ha, lookup, ih]

theorem setKey_eq_of_lookup (d : Dict) (k : String) (v : Json)
    (h : lookup d k = some v) : setKey d k v = d := by
  induction d with
  | nil => simp [lookup] at h
  | cons p rest ih =>
    obtain ⟨a, b⟩ := p
    by_cases ha : a = k
    · subst ha
      simp [lookup] at h
      simp [setKey, h]
    · simp [lookup, ha] at h
      simp [setKey, ha, ih h]

theorem dictUnion_nil (z : Dict) : dictUnion z [] = z := rfl

theorem dictUnion_cons (z : Dict) (p : String × Json) (ys : Dict) :
    dictUnion z (p :: ys) = dictUnion (setKey z p.1 p.2) ys := rfl

theorem lookup_dictUnion_not_mem (z ys : Dict) (k : String)
    (h : k ∉ ys.map Prod.fst) : lookup (dictUnion z ys) k = lookup z k := by
  induction ys generalizing z with
  | nil => rfl
  | cons p rest ih =>
    simp only [List.map_cons, List.mem_cons, not_or] at h
    rw [dictUnion_cons, ih _ h.2]
    exact lookup_setKey_ne _ _ _ _ h.1

theorem lookup_of_nodup_mem (ys : Dict) (k : String) (v : Json)
    (hnd : NodupKeys ys) (hm : (k, v) ∈ ys) : lookup ys k = some v := by
  induction ys with
  | nil => cases hm
  | cons p rest ih =>
    obtain ⟨a, b⟩ := p
    simp only [NodupKeys, List.map_cons, List.nodup_cons] at hnd
    rcases List.mem_cons.mp hm with h | h
    · injection h with h1 h2
      subst h1
      subst h2
      simp [lookup]
    · have hak : a ≠ k := by
        intro e
        subst e
        exact hnd.1 (List.mem_map.mpr ⟨(a, v), h, rfl⟩)
      simp [lookup, hak, ih hnd.2 h]

theorem lookup_dictUnion_mem (z ys : Dict) (k : String) (v : Json)
    (hnd : NodupKeys ys) (hm : (k, v) ∈ ys) : lookup (dictUnion z ys) k = some v := by
  induction ys generalizing z with
  | nil => cases hm
  | cons p rest ih =>
    obtain ⟨a, b⟩ := p
    simp only [NodupKeys, List.map_cons, List.nodup_cons] at hnd
    rcases List.mem_cons.mp hm with h | h
    · injection h with h1 h2
      subst h1
      subst h2
      rw [dictUnion_cons, lookup_dictUnion_not_mem _ _ _ hnd.1]
      exact lookup_setKey_self ..
    · rw [dictUnion_cons]
      exact ih _ hnd.2 h

theorem dictUnion_absorb (z ys : Dict)
    (h : ∀ p ∈ ys, lookup z p.1 = some p.2) : dictUnion z ys = z := by
  induction ys with
  | nil => rfl
  | cons p rest ih =>
    rw [dictUnion_cons, setKey_eq_of_lookup _ _ _ (h p (List.mem_cons_self ..))]
    exact ih (fun q hq => h q (List.mem_cons_of_mem _ hq))

theorem dictUnion_stable (z ys : Dict) (hnd : NodupKeys ys) :
    dictUnion (dictUnion z ys) ys = dictUnion z ys :=
  dictUnion_absorb _ _ (fun _ hp => lookup_dictUnion_mem _ _ _ _ hnd hp)

theorem mergeStep_eq (d : Dict) (kv : String × Json) :
    mergeStep d kv = setKey d kv.1 (mergeVal (lookup d kv.1) kv.2) := by
  obtain ⟨k, v⟩ := kv
  rcases h : lookup d k with _ | w
  · cases v <;> simp [mergeStep, mergeVal, h]
  · cases v <;> cases w <;> simp [mergeStep, mergeVal, h]

theorem mergeVal_stable (cur : Option Json) (v : Json)
    (hv : objKeysNodup v = true) : mergeVal (some (mergeVal cur v)) v = mergeVal cur v := by
  cases v with
  | obj ov =>
    have hnd : NodupKeys ov := of_decide_eq_true hv
    rcases cur with _ | w
    · simpa [mergeVal] using congrArg Json.obj
        (dictUnion_absorb ov ov (fun p hp => lookup_of_nodup_mem _ _ _ hnd hp))
    · cases w <;>
        simp [mergeVal, dictUnion_stable _ _ hnd,
          dictUnion_absorb ov ov (fun p hp => lookup_of_nodup_mem _ _ _ hnd hp)]
  | null => rfl
  | bool b => rfl
  | num n => rfl
  | str s => rfl
  | arr l => rfl

theorem lookup_mergeStep_ne (d : Dict) (kv : String × Json) (k : String)
    (h : k ≠ kv.1) : lookup (mergeStep d kv) k = lookup d k := by
  rw [mergeStep_eq]
  exact lookup_setKey_ne _ _ _ _ h

theorem lookup_mergeStep_self (d : Dict) (kv : String × Json) :
    lookup (mergeStep d kv) kv.1 = some (mergeVal (lookup d kv.1) kv.2) := by
  rw [mergeStep_eq]
  exact lookup_setKey_self ..

theorem lookup_foldl_mergeStep_not_mem (ys : Dict) (d : Dict) (k : String)
    (h : k ∉ ys.map Prod.fst) : lookup (ys.foldl mergeStep d) k = lookup d k := by
  induction ys generalizing d with
  | nil => rfl
  | cons p rest ih =>
    simp only [List.map_cons, List.mem_cons, not_or] at h
    rw [List.foldl_cons, ih _ h.2, lookup_mergeStep_ne _ _ _ h.1]

/-- Applying the override fold of `merge_inputs` a second time with the same
override dictionary changes nothing, provided the overrides are dict-shaped
(pairwise-distinct keys, also inside mapping values). -/
theorem foldl_mergeStep_stable (b : Dict) (a : Dict) (hnd : NodupKeys b)
    (hobj : ∀ p ∈ b, objKeysNodup p.2 = true) :
    b.foldl mergeStep (b.foldl mergeStep a) = b.foldl mergeStep a := by
  induction b generalizing a with
  | nil => rfl
  | cons p rest ih =>
    simp only [NodupKeys, List.map_cons, List.nodup_cons] at hnd
    have hobj1 : objKeysNodup p.2 = true := hobj p (List.mem_cons_self ..)
    have hobjr : ∀ q ∈ rest, objKeysNodup q.2 = true :=
      fun q hq => hobj q (List.mem_cons_of_mem _ hq)
    simp only [List.foldl_cons]
    have hm : lookup (rest.foldl mergeStep (mergeStep a p)) p.1
        = some (mergeVal (lookup a p.1) p.2) := by
      rw [lookup_foldl_mergeStep_not_mem _ _ _ hnd.1]
      exact lookup_mergeStep_self ..
    have hstep : mergeStep (rest.foldl mergeStep (mergeStep a p)) p
        = rest.foldl mergeStep (mergeStep a p) := by
      rw [mergeStep_eq, hm, mergeVal_stable _ _ hobj1]
      exact setKey_eq_of_lookup _ _ _ hm
    rw [hstep]
    exact ih _ hnd.2 hobjr

theorem mergeVal_none (v : Json) : mergeVal none v = v := by
  cases v <;> rfl

/-- When the base mapping does not carry a key, merging puts the override
value for that key in the result verbatim. -/
theorem lookup_merge_of_base_none (ov : Dict) (base : Dict) (k : String)
    (hb : lookup base k = none) (hnd : NodupKeys ov) :
    lookup (merge_inputs base (some ov)) k = lookup ov k := by
  induction ov generalizing base with
  | nil => simpa [merge_inputs, lookup] using hb
  | cons p rest ih =>
    obtain ⟨a, b⟩ := p
    simp only [NodupKeys, List.map_cons, List.nodup_cons] at hnd
    simp only [merge_inputs, List.foldl_cons]
    by_cases hak : a = k
    · subst hak
      rw [lookup_foldl_mergeStep_not_mem _ _ _ hnd.1, lookup_mergeStep_self, hb]
      simp [lookup, mergeVal_none]
    · have : lookup (mergeStep base (a, b)) k = none := by
        rw [lookup_mergeStep_ne _ _ _ (fun e => hak e.symm)]
        exact hb
      simpa [merge_inputs, lookup, hak] using ih _ this hnd.2

/-- When the checked key is already present, the proxy-injection step is the
identity. -/
theorem applyProxyStep_of_present (d : Dict) (plat : String) (env : ProxyEnv)
    (v : Json) (h : lookup d "proxyConfiguration" = some v) :
    applyProxyStep d plat env = d := by
  simp [applyProxyStep, hasKey, h]

theorem lookup_eq_none_of_keys (d : Dict) (k : String)
    (h : ∀ p ∈ d, p.1 ≠ k) : lookup d k = none := by
  induction d with
  | nil => rfl
  | cons p rest ih =>
    simp only [lookup, h p (List.mem_cons_self ..)]
    exact ih (fun q hq => h q (List.mem_cons_of_mem _ hq))

theorem build_run_input_eq (p : PlatformName) (targets : List String) (max_items : Int)
    (include_contact_info : Bool) (overrides : Option Dict) :
    build_run_input p targets max_items include_contact_info overrides
      = merge_inputs (base_input p targets max_items include_contact_info) overrides := by
  cases p <;> rfl

/-- No request builder puts a `proxyConfiguration` key into its pre-merge
base input: every base key is one of the fixed platform fields. -/
theorem lookup_base_input_proxy (p : PlatformName) (targets : List String)
    (max_items : Int) (include_contact_info : Bool) :
    lookup (base_input p targets max_items include_contact_info) "proxyConfiguration"
      = none := by
  apply lookup_eq_none_of_keys
  intro q hq
  cases p <;>
    simp only [base_input, instagram_base_input, instagram_profile_payload,
      instagram_base_payload, facebook_base_input, tiktok_base_input,
      twitter_base_input, linkedin_base_input] at hq <;>
    (repeat' split at hq) <;>
    simp_all <;>
    casesm* _ ∨ _ <;>
    simp_all

/-- C6: when the caller's overrides mapping contains the key
`proxyConfiguration`, the built request carries the override value verbatim
and the default Proxy Selector step is skipped, for every setting of the
environment proxy policy: two runs differing only in the proxy environment
variables (including the session randomness) produce identical request
objects. -/
theorem claim_C6 (p : PlatformName) (targets : List String) (max_items : Int)
    (include_contact_info : Bool) (ov : Dict) (v : Json) (env env' : ProxyEnv)
    (hnd : NodupKeys ov) (hpc : lookup ov "proxyConfiguration" = some v) :
    run_request p targets max_items include_contact_info (some ov) env
      = run_request p targets max_items include_contact_info (some ov) env'
    ∧ lookup (run_request p targets max_items include_contact_info (some ov) env)
        "proxyConfiguration" = some v := by
  have hb := lookup_base_input_proxy p targets max_items include_contact_info
  have hm : lookup (build_run_input p targets max_items include_contact_info (some ov))
      "proxyConfiguration" = some v := by
    rw [build_run_input_eq, lookup_merge_of_base_none _ _ _ hb hnd]
    exact hpc
  refine ⟨?_, ?_⟩
  · unfold run_request
    rw [applyProxyStep_of_present _ _ _ _ hm, applyProxyStep_of_present _ _ _ _ hm]
  · unfold run_request
    rw [applyProxyStep_of_present _ _ _ _ hm]
    exact hm

theorem claim_C6_witness :
    run_request .twitter ["@a"] 5 true
        (some [("proxyConfiguration", Json.obj [("useApifyProxy", Json.bool false)])]) envSticky
      = run_request .twitter ["@a"] 5 true
        (some [("proxyConfiguration", Json.obj [("useApifyProxy", Json.bool false)])]) envOff
    ∧ lookup (run_request .twitter ["@a"] 5 true
        (some [("proxyConfiguration", Json.obj [("useApifyProxy", Json.bool false)])]) envSticky)
        "proxyConfiguration" = some (Json.obj [("useApifyProxy", Json.bool false)]) :=
  claim_C6 .twitter ["@a"] 5 true _ _ envSticky envOff (by decide) rfl

/-- C7: the Input Merger is idempotent in its second argument:
`merge(merge(a, b), b) = merge(a, b)`.  The hypotheses say `b` is dict-shaped
(pairwise-distinct keys, also inside its mapping values), which every Python
dictionary satisfies; no depth restriction on conflicts is needed. -/
theorem claim_C7 (a b : Dict) (hnd : NodupKeys b)
    (hobj : ∀ q ∈ b, objKeysNodup q.2 = true) :
    merge_inputs (merge_inputs a (some b)) (some b) = merge_inputs a (some b) :=
  foldl_mergeStep_stable b a hnd hobj

theorem claim_C7_witness :
    merge_inputs
      (merge_inputs [("maxItems", Json.num 25), ("nested", Json.obj [("x", Json.num 1)])]
        (some [("nested", Json.obj [("x", Json.num 2), ("y", Json.bool true)]),
               ("flat", Json.str "s")]))
      (some [("nested", Json.obj [("x", Json.num 2), ("y", Json.bool true)]),
             ("flat", Json.str "s")])
    = merge_inputs [("maxItems", Json.num 25), ("nested", Json.obj [("x", Json.num 1)])]
        (some [("nested", Json.obj [("x", Json.num 2), ("y", Json.bool true)]),
               ("flat", Json.str "s")]) :=
  claim_C7 _ _ (by decide) (by decide)

/-- C9: whenever the merged request already contains the key
`proxyConfiguration` — whatever its value, `null` included — the default
proxy configuration is never injected; in particular supplying
`proxyConfiguration: null` in the overrides suppresses default proxying and
the final request carries `null` unchanged. -/
theorem claim_C9 :
    (∀ (run_input : Dict) (v : Json) (plat : String) (env : ProxyEnv),
        lookup run_input "proxyConfiguration" = some v →
        applyProxyStep run_input plat env = run_input)
    ∧ (∀ (p : PlatformName) (targets : List String) (max_items : Int)
        (include_contact_info : Bool) (ov : Dict) (env : ProxyEnv),
        NodupKeys ov → lookup ov "proxyConfiguration" = some Json.null →
        run_request p targets max_items include_contact_info (some ov) env
          = build_run_input p targets max_items include_contact_info (some ov)
        ∧ lookup (run_request p targets max_items include_contact_info (some ov) env)
            "proxyConfiguration" = some Json.null) := by
  constructor
  · intro run_input v plat env h
    exact applyProxyStep_of_present _ _ _ _ h
  · intro p targets max_items include_contact_info ov env hnd hpc
    have hm : lookup (build_run_input p targets max_items include_contact_info (some ov))
        "proxyConfiguration" = some Json.null := by
      rw [build_run_input_eq,
        lookup_merge_of_base_none _ _ _
          (lookup_base_input_proxy p targets max_items include_contact_info) hnd]
      exact hpc
    refine ⟨applyProxyStep_of_present _ _ _ _ hm, ?_⟩
    unfold run_request
    rw [applyProxyStep_of_present _ _ _ _ hm]
    exact hm

theorem claim_C9_witness :
    applyProxyStep [("proxyConfiguration", Json.null)] "instagram" envSticky
      = [("proxyConfiguration", Json.null)]
    ∧ lookup (run_request .instagram ["#sale"] 10 true
        (some [("proxyConfiguration", Json.null)]) envSticky) "proxyConfiguration"
      = some Json.null :=
  ⟨claim_C9.1 _ Json.null _ _ rfl,
   (claim_C9.2 .instagram ["#sale"] 10 true [("proxyConfiguration", Json.null)] envSticky
     (by decide) rfl).2⟩

theorem toolBuildersGet_total (p : PlatformName) : ∃ t, toolBuildersGet p = some t := by
  cases p <;> exact ⟨_, rfl⟩

theorem mem_dedupPlats (l : List PlatformName) (a : PlatformName) :
    a ∈ dedupPlats l ↔ a ∈ l := by
  induction l with
  | nil => simp [dedupPlats]
  | cons p ps ih =>
    simp only [dedupPlats, List.mem_cons]
    by_cases hp : p ∈ dedupPlats ps
    · simp only [if_pos hp, ih]
      constructor
      · exact fun h => Or.inr h
      · rintro (rfl | h)
        · exact ih.mp hp
        · exact h
    · simp [if_neg hp, ih]

theorem parseAllPlatforms_ok (raws : List String)
    (h : ∀ r ∈ raws, (parsePlatform r).isSome) :
    ∃ ps, parseAllPlatforms raws = Except.ok ps ∧ ps.length = raws.length := by
  induction raws with
  | nil => exact ⟨[], rfl, rfl⟩
  | cons r rs ih =>
    obtain ⟨p, hp⟩ := Option.isSome_iff_exists.mp (h r (List.mem_cons_self ..))
    obtain ⟨ps, hps, hlen⟩ := ih (fun q hq => h q (List.mem_cons_of_mem _ hq))
    exact ⟨p :: ps, by simp [parseAllPlatforms, hp, hps, Except.map], by simp [hlen]⟩

theorem parseAllPlatforms_error (raws : List String)
    (h : ∃ r ∈ raws, parsePlatform r = none) :
    ∃ msg, parseAllPlatforms raws = Except.error msg := by
  induction raws with
  | nil => simp at h
  | cons r rs ih =>
    rcases h with ⟨q, hq, hnone⟩
    rcases List.mem_cons.mp hq with rfl | hmem
    · exact ⟨"Invalid platform configuration: " ++ q, by simp [parseAllPlatforms, hnone]⟩
    · cases hr : parsePlatform r with
      | none => exact ⟨"Invalid platform configuration: " ++ r, by simp [parseAllPlatforms, hr]⟩
      | some p =>
        obtain ⟨msg, hmsg⟩ := ih ⟨q, hmem, hnone⟩
        exact ⟨msg, by simp [parseAllPlatforms, hr, hmsg, Except.map]⟩

/-- C5, corrected: a platform name that fails enum validation aborts the
whole batch with a fatal `ValueError` before any tool is instantiated or any
invocation attempted; when every platform name validates, resolution succeeds
with a non-empty tool list (the builder mapping covers all five platforms, so
the skip-with-warning branch and the empty-set fatal error are unreachable
for validated input). -/
theorem claim_C5 (raws : List String) :
    ((∃ r ∈ raws, parsePlatform r = none) →
      ∃ msg, resolve_tools raws = Except.error msg)
    ∧ (raws ≠ [] → (∀ r ∈ raws, (parsePlatform r).isSome) →
      ∃ tools, resolve_tools raws = Except.ok tools ∧ tools ≠ []) := by
  constructor
  · intro h
    obtain ⟨msg, hmsg⟩ := parseAllPlatforms_error raws h
    have hne : raws ≠ [] := by
      rcases h with ⟨q, hq, _⟩
      exact List.ne_nil_of_mem hq
    refine ⟨msg, ?_⟩
    unfold resolve_tools
    rw [hmsg]
    simp [List.isEmpty_iff, hne]
  · intro hne h
    obtain ⟨ps, hps, hlen⟩ := parseAllPlatforms_ok raws h
    have hpsne : ps ≠ [] := by
      intro e
      subst e
      exact hne (List.length_eq_zero.mp hlen.symm)
    obtain ⟨q, hq⟩ := List.exists_mem_of_ne_nil _ hpsne
    obtain ⟨t, ht⟩ := toolBuildersGet_total q
    have htools : t ∈ (dedupPlats ps).filterMap toolBuildersGet :=
      List.mem_filterMap.mpr ⟨q, (mem_dedupPlats _ _).mpr hq, ht⟩
    have htne : (dedupPlats ps).filterMap toolBuildersGet ≠ [] :=
      List.ne_nil_of_mem htools
    refine ⟨(dedupPlats ps).filterMap toolBuildersGet, ?_, htne⟩
    unfold resolve_tools
    rw [hps]
    simp [List.isEmpty_iff, hne, htne]

theorem claim_C5_witness :
    (∃ msg, resolve_tools ["myspace"] = Except.error msg)
    ∧ (∃ tools, resolve_tools ["tiktok", "linkedin"] = Except.ok tools ∧ tools ≠ []) :=
  ⟨(claim_C5 ["myspace"]).1 ⟨"myspace", by decide, by rfl⟩,
   (claim_C5 ["tiktok", "linkedin"]).2 (by decide) (by decide)⟩

/-- C5, the claim as stated is false: a batch naming the unknown platform
`myspace` alongside the valid `instagram` is aborted whole by the validation
error — the valid platform never dispatches and nothing is skipped with a
warning. -/
theorem claim_C5_counterexample :
    resolve_tools ["instagram", "myspace"]
      = Except.error "Invalid platform configuration: myspace" := rfl

/-- C8: a scrape call whose `maxItems` lies outside `[1, 500]` or whose
target list is empty fails with a validation error; in the model the
`Except.error` exit of `scrape` is taken before any run input is constructed
or handed to the invoker. -/
theorem claim_C8 (p : PlatformName) (targets : List String) (max_items : Int)
    (include_contact_info : Bool) (ov : Option Dict) (env : ProxyEnv)
    (h : targets = [] ∨ max_items < 1 ∨ 500 < max_items) :
    scrape p targets max_items include_contact_info ov env
      = Except.error "ValidationError" := by
  have hv : validPlatformToolInput targets max_items = false := by
    rcases h with h | h | h
    · subst h
      simp [validPlatformToolInput]
    · have hlt : ¬ (1 ≤ max_items) := by omega
      simp [validPlatformToolInput, hlt]
    · have hgt : ¬ (max_items ≤ 500) := by omega
      simp [validPlatformToolInput, hgt]
  simp [scrape, hv]

theorem claim_C8_witness :
    scrape .instagram [] 25 true none envOff = Except.error "ValidationError"
    ∧ scrape .linkedin ["https://linkedin.com/in/jane"] 501 true none envOff
      = Except.error "ValidationError" :=
  ⟨claim_C8 _ _ _ _ _ _ (Or.inl rfl),
   claim_C8 _ _ _ _ _ _ (Or.inr (Or.inr (by omega)))⟩

theorem data_isEmpty_iff (s : String) : s.data.isEmpty = true ↔ s = "" := by
  cases s with
  | mk l =>
    rw [List.isEmpty_iff]
    constructor
    · rintro rfl
      rfl
    · exact fun h => congrArg String.data h

theorem instagram_categorize_all_ws (ts : List String) (h : ∀ t ∈ ts, pyStrip t = "") :
    instagram_categorize ts = ⟨[], [], [], []⟩ := by
  induction ts with
  | nil => rfl
  | cons t ts ih =>
    have ht : pyStrip t = "" := h t (List.mem_cons_self ..)
    have hemp : (pyStrip t).data.isEmpty = true := by rw [ht]; rfl
    simp [instagram_categorize, hemp, ih (fun q hq => h q (List.mem_cons_of_mem _ hq))]

/-- The Instagram classification loop, characterized per bucket as a
filterMap of the per-target rules: whitespace stripped, empty targets
dropped, first prefix match wins, input order preserved inside every
bucket. -/
theorem instagram_categorize_eq (ts : List String) :
    instagram_categorize ts
      = ⟨ts.filterMap igUrlOf, ts.filterMap igHandleOf,
         ts.filterMap igTagOf, ts.filterMap igTermOf⟩ := by
  induction ts with
  | nil => rfl
  | cons t ts ih =>
    simp only [instagram_categorize, ih, List.filterMap_cons,
      igUrlOf, igHandleOf, igTagOf, igTermOf]
    split_ifs <;> rfl

/-- The TikTok classification loop, characterized per bucket: the same
first-match rules, with targets that strip to the empty string kept in the
keyword bucket. -/
theorem tiktok_categorize_eq (ts : List String) :
    tiktok_categorize ts
      = ⟨ts.filterMap ttUrlOf, ts.filterMap ttHandleOf,
         ts.filterMap ttTagOf, ts.filterMap ttTermOf⟩ := by
  induction ts with
  | nil => rfl
  | cons t ts ih =>
    simp only [tiktok_categorize, ih, List.filterMap_cons,
      ttUrlOf, ttHandleOf, ttTagOf, ttTermOf]
    split_ifs <;> rfl

/-- The Twitter classification loop, characterized per bucket. -/
theorem twitter_categorize_eq (ts : List String) :
    twitter_categorize ts = ⟨ts.filterMap twHandleOf, ts.filterMap twQueryOf⟩ := by
  induction ts with
  | nil => rfl
  | cons t ts ih =>
    simp only [twitter_categorize, ih, List.filterMap_cons, twHandleOf, twQueryOf]
    split_ifs <;> rfl

theorem ig_buckets_exact (t : String) (h : pyStrip t ≠ "") :
    ((igUrlOf t).toList ++ (igHandleOf t).toList ++ (igTagOf t).toList
      ++ (igTermOf t).toList).length = 1 := by
  have hne : (pyStrip t).data.isEmpty = false := by
    rcases hb : (pyStrip t).data.isEmpty with _ | _
    · rfl
    · exact absurd ((data_isEmpty_iff _).mp hb) h
  simp only [igUrlOf, igHandleOf, igTagOf, igTermOf, hne]
  split_ifs <;> first | rfl | contradiction

theorem tt_buckets_exact (t : String) :
    ((ttUrlOf t).toList ++ (ttHandleOf t).toList ++ (ttTagOf t).toList
      ++ (ttTermOf t).toList).length = 1 := by
  simp only [ttUrlOf, ttHandleOf, ttTagOf, ttTermOf]
  split_ifs <;> rfl

theorem tw_buckets_exact (t : String) :
    ((twHandleOf t).toList ++ (twQueryOf t).toList).length = 1 := by
  simp only [twHandleOf, twQueryOf]
  split_ifs <;> rfl

/-- C4, corrected: for the loop-based classifiers every target is stripped
and assigned to exactly one bucket by first-match precedence, input order
preserved within the bucket; but only Instagram drops targets that strip to
the empty string — TikTok and Twitter place them (as empty strings) in their
free-text buckets. -/
theorem claim_C4 :
    (∀ ts, instagram_categorize ts
      = ⟨ts.filterMap igUrlOf, ts.filterMap igHandleOf,
         ts.filterMap igTagOf, ts.filterMap igTermOf⟩)
    ∧ (∀ ts, tiktok_categorize ts
      = ⟨ts.filterMap ttUrlOf, ts.filterMap ttHandleOf,
         ts.filterMap ttTagOf, ts.filterMap ttTermOf⟩)
    ∧ (∀ ts, twitter_categorize ts = ⟨ts.filterMap twHandleOf, ts.filterMap twQueryOf⟩)
    ∧ (∀ t, pyStrip t ≠ "" →
        ((igUrlOf t).toList ++ (igHandleOf t).toList ++ (igTagOf t).toList
          ++ (igTermOf t).toList).length = 1)
    ∧ (∀ t, ((ttUrlOf t).toList ++ (ttHandleOf t).toList ++ (ttTagOf t).toList
          ++ (ttTermOf t).toList).length = 1)
    ∧ (∀ t, ((twHandleOf t).toList ++ (twQueryOf t).toList).length = 1)
    ∧ (∀ t, ttTermOf t = some (pyStrip t) ∨ (ttTermOf t) = none) :=
  ⟨instagram_categorize_eq, tiktok_categorize_eq, twitter_categorize_eq,
   ig_buckets_exact, tt_buckets_exact, tw_buckets_exact,
   fun t => by
     simp only [ttTermOf]
     split_ifs <;> simp⟩

theorem claim_C4_witness :
    instagram_categorize ["  ", "@bob"] = ⟨[], ["bob"], [], []⟩
    ∧ ((igUrlOf "#x").toList ++ (igHandleOf "#x").toList ++ (igTagOf "#x").toList
        ++ (igTermOf "#x").toList).length = 1 := by
  refine ⟨?_, claim_C4.2.2.2.1 "#x" (by decide)⟩
  rw [claim_C4.1]
  rfl

/-- C4, the claim as stated is false: the TikTok classification does not
drop an all-whitespace target — it strips it to the empty string and keeps
it in the keyword bucket, so the built request carries `searchTerms: [""]`. -/
theorem claim_C4_counterexample :
    (tiktok_categorize [" "]).terms = [""]
    ∧ lookup (tiktok_build_run_input [" "] 25 false none) "searchTerms"
      = some (strArr [""]) := ⟨rfl, rfl⟩

/-- C3, corrected: no builder raises on an empty target list, and with
null-or-empty overrides Instagram, Facebook, TikTok and Twitter return
exactly the `maxItems` key plus the platform contact flag when enabled; but
LinkedIn additionally always carries `profileUrls` (the empty list) and
`maxDepth`, and an all-whitespace target list yields the minimal request
only on Instagram (the other builders keep empty-string entries in their
buckets, as the C4 counterexample shows). -/
theorem claim_C3 (max_items : Int) (flag : Bool) (ov : Option Dict)
    (hov : ov = none ∨ ov = some []) :
    (instagram_build_run_input [] max_items flag ov).map Prod.fst
        = "maxItems" :: (if flag then ["addUserInfo"] else [])
    ∧ (facebook_build_run_input [] max_items flag ov).map Prod.fst
        = "maxItems" :: (if flag then ["shouldDownloadVideos"] else [])
    ∧ (tiktok_build_run_input [] max_items flag ov).map Prod.fst
        = "maxItems" :: (if flag then ["shouldDownloadCaptions"] else [])
    ∧ (twitter_build_run_input [] max_items flag ov).map Prod.fst
        = "maxItems" :: (if flag then ["includeRetweet"] else [])
    ∧ (linkedin_build_run_input [] max_items flag ov).map Prod.fst
        = "profileUrls" :: "maxDepth" ::
          ((if flag then ["shouldFetchContact"] else []) ++ ["maxItems"])
    ∧ lookup (linkedin_build_run_input [] max_items flag ov) "profileUrls"
        = some (strArr [])
    ∧ (∀ ts, (∀ t ∈ ts, pyStrip t = "") →
        (instagram_build_run_input ts max_items flag ov).map Prod.fst
          = "maxItems" :: (if flag then ["addUserInfo"] else [])) := by
  have hmerge : ∀ d : Dict, merge_inputs d ov = d := by
    rcases hov with rfl | rfl <;> exact fun d => rfl
  refine ⟨?_, ?_, ?_, ?_, ?_, ?_, ?_⟩
  · rw [instagram_build_run_input, hmerge]
    cases flag <;> rfl
  · rw [facebook_build_run_input, hmerge]
    cases flag <;> rfl
  · rw [tiktok_build_run_input, hmerge]
    cases flag <;> rfl
  · rw [twitter_build_run_input, hmerge]
    cases flag <;> rfl
  · rw [linkedin_build_run_input, hmerge]
    cases flag <;> rfl
  · rw [linkedin_build_run_input, hmerge]
    cases flag <;> rfl
  · intro ts hts
    rw [instagram_build_run_input, hmerge, instagram_base_input,
      instagram_categorize_all_ws ts hts]
    cases flag <;> rfl

theorem claim_C3_witness :
    (twitter_build_run_input [] 7 false none).map Prod.fst = ["maxItems"]
    ∧ (instagram_build_run_input ["   "] 7 true (some [])).map Prod.fst
      = ["maxItems", "addUserInfo"] := by
  refine ⟨?_, ?_⟩
  · have h := (claim_C3 7 false none (Or.inl rfl)).2.2.2.1
    simpa using h
  · have h := (claim_C3 7 true (some []) (Or.inr rfl)).2.2.2.2.2.2 ["   "] (by decide)
    simpa using h

/-- C3, the claim as stated is false: LinkedIn's builder on the empty target
list returns the keys `profileUrls`, `maxDepth`, `maxItems` — not only
`maxItems` — and Facebook's builder on an all-whitespace target list keeps a
`searchTerms` key holding the empty string. -/
theorem claim_C3_counterexample :
    (linkedin_build_run_input [] 25 false none).map Prod.fst
      = ["profileUrls", "maxDepth", "maxItems"]
    ∧ (facebook_build_run_input [" "] 25 false none).map Prod.fst
      = ["maxItems", "searchTerms"]
    ∧ (["profileUrls", "maxDepth", "maxItems"] : List String) ≠ ["maxItems"]
    ∧ (["maxItems", "searchTerms"] : List String) ≠ ["maxItems"] :=
  ⟨rfl, rfl, by decide, by decide⟩

theorem isPrefixOf_single (c : Char) (l : List Char)
    (h : List.isPrefixOf [c] l = true) : ∃ l', l = c :: l' := by
  cases l with
  | nil => cases h
  | cons a l' =>
    simp only [List.isPrefixOf, Bool.and_eq_true, beq_iff_eq] at h
    exact ⟨l', by rw [h.1]⟩

theorem isPrefixOf_single_dropWhile (c : Char) (l : List Char) :
    List.isPrefixOf [c] (l.dropWhile (fun d => d = c)) = false := by
  induction l with
  | nil => rfl
  | cons a l ih =>
    by_cases hac : a = c
    · simpa [List.dropWhile_cons, hac] using ih
    · simp [List.dropWhile_cons, hac, List.isPrefixOf, beq_iff_eq]
      exact fun e => hac e.symm

/-- C10: the handle and hashtag markers are removed with `str.lstrip`, which
strips every leading occurrence, not just the first: a target stripping to
`@...@x` enters the handle bucket with all leading `@` removed (Instagram,
TikTok, Twitter), and likewise `#` for hashtags (Instagram, TikTok); the
stored value never starts with the marker, and concretely `@@bob` classifies
as the handle `bob` and `##deals` as the hashtag `deals`. -/
theorem claim_C10 :
    (∀ t, pyStartsWith (pyStrip t) "@" = true →
        instagram_categorize [t] = ⟨[], [pyLstrip (pyStrip t) '@'], [], []⟩
        ∧ tiktok_categorize [t] = ⟨[], [pyLstrip (pyStrip t) '@'], [], []⟩
        ∧ twitter_categorize [t] = ⟨[pyLstrip (pyStrip t) '@'], []⟩
        ∧ pyStartsWith (pyLstrip (pyStrip t) '@') "@" = false)
    ∧ (∀ t, pyStartsWith (pyStrip t) "#" = true →
        instagram_categorize [t] = ⟨[], [], [pyLstrip (pyStrip t) '#'], []⟩
        ∧ tiktok_categorize [t] = ⟨[], [], [pyLstrip (pyStrip t) '#'], []⟩
        ∧ pyStartsWith (pyLstrip (pyStrip t) '#') "#" = false)
    ∧ instagram_categorize ["@@bob"] = ⟨[], ["bob"], [], []⟩
    ∧ instagram_categorize ["##deals"] = ⟨[], [], ["deals"], []⟩
    ∧ twitter_categorize ["@@bob"] = ⟨["bob"], []⟩
    ∧ tiktok_categorize ["##deals"] = ⟨[], [], ["deals"], []⟩ := by
  refine ⟨?_, ?_, rfl, rfl, rfl, rfl⟩
  · intro t h
    obtain ⟨l, hl⟩ := isPrefixOf_single '@' (pyStrip t).data h
    have hemp : (pyStrip t).data.isEmpty = false := by rw [hl]; rfl
    have hhttp : pyStartsWith (pyStrip t) "http" = false := by
      unfold pyStartsWith
      rw [hl]
      rfl
    refine ⟨?_, ?_, ?_, isPrefixOf_single_dropWhile '@' (pyStrip t).data⟩
    · simp [instagram_categorize, hemp, hhttp, h]
    · simp [tiktok_categorize, hhttp, h]
    · simp [twitter_categorize, h]
  · intro t h
    obtain ⟨l, hl⟩ := isPrefixOf_single '#' (pyStrip t).data h
    have hemp : (pyStrip t).data.isEmpty = false := by rw [hl]; rfl
    have hhttp : pyStartsWith (pyStrip t) "http" = false := by
      unfold pyStartsWith
      rw [hl]
      rfl
    have hat : pyStartsWith (pyStrip t) "@" = false := by
      unfold pyStartsWith
      rw [hl]
      rfl
    refine ⟨?_, ?_, isPrefixOf_single_dropWhile '#' (pyStrip t).data⟩
    · simp [instagram_categorize, hemp, hhttp, hat, h]
    · simp [tiktok_categorize, hhttp, hat, h]

theorem claim_C10_witness :
    pyStartsWith (pyStrip "@@bob") "@" = true
    ∧ (instagram_categorize ["@@bob"] = ⟨[], [pyLstrip (pyStrip "@@bob") '@'], [], []⟩
      ∧ tiktok_categorize ["@@bob"] = ⟨[], [pyLstrip (pyStrip "@@bob") '@'], [], []⟩
      ∧ twitter_categorize ["@@bob"] = ⟨[pyLstrip (pyStrip "@@bob") '@'], []⟩
      ∧ pyStartsWith (pyLstrip (pyStrip "@@bob") '@') "@" = false) :=
  ⟨rfl, claim_C10.1 "@@bob" rfl⟩

theorem truthyAt_some (r : Dict) (k : String) (v : Json) (h : truthyAt r k = some v) :
    pyTruthy v = true ∧ pyGet r k = v := by
  unfold truthyAt at h
  unfold pyGet
  cases hl : lookup r k with
  | none => rw [hl] at h; cases h
  | some w =>
    rw [hl] at h
    by_cases ht : pyTruthy w = true
    · simp [ht] at h
      subst h
      exact ⟨ht, rfl⟩
    · simp [Bool.eq_false_iff.mpr ht] at h

theorem truthyAt_none (r : Dict) (k : String) (h : truthyAt r k = none) :
    pyTruthy (pyGet r k) = false := by
  unfold truthyAt at h
  unfold pyGet
  cases hl : lookup r k with
  | none => rfl
  | some w =>
    rw [hl] at h
    by_cases ht : pyTruthy w = true
    · simp [ht] at h
    · simpa using Bool.eq_false_iff.mpr ht

theorem pyOr_truthyAt (r : Dict) (k : String) (rest : Json) :
    pyOr (pyGet r k) rest
      = match truthyAt r k with
        | some v => v
        | none => rest := by
  unfold pyOr
  cases ht : truthyAt r k with
  | some v =>
    obtain ⟨htr, hget⟩ := truthyAt_some r k v ht
    rw [hget, htr]
    simp
  | none =>
    rw [truthyAt_none r k ht]
    simp

/-- The code's `or`-chain over the four dataset-id aliases agrees with the
ordered first-truthy-alias resolution `datasetIdOf`: when an alias holds a
truthy value the chain yields the first such value, and when none does the
chain value is falsy. -/
theorem datasetChain_cases (r : Dict) :
    (∀ d, datasetIdOf r = some d → datasetChain r = d ∧ pyTruthy d = true)
    ∧ (datasetIdOf r = none → pyTruthy (datasetChain r) = false) := by
  unfold datasetChain datasetIdOf
  rw [pyOr_truthyAt, pyOr_truthyAt, pyOr_truthyAt]
  cases h1 : truthyAt r "defaultDatasetId" with
  | some v =>
    exact ⟨fun d hd => by
        cases hd
        exact ⟨rfl, (truthyAt_some _ _ _ h1).1⟩,
      fun hn => Option.noConfusion hn⟩
  | none =>
    cases h2 : truthyAt r "default_dataset_id" with
    | some v =>
      exact ⟨fun d hd => by
          cases hd
          exact ⟨rfl, (truthyAt_some _ _ _ h2).1⟩,
        fun hn => Option.noConfusion hn⟩
    | none =>
      cases h3 : truthyAt r "datasetId" with
      | some v =>
        exact ⟨fun d hd => by
            cases hd
            exact ⟨rfl, (truthyAt_some _ _ _ h3).1⟩,
          fun hn => Option.noConfusion hn⟩
      | none =>
        cases h4 : truthyAt r "outputDatasetId" with
        | some v =>
          exact ⟨fun d hd => by
              cases hd
              exact ⟨(truthyAt_some _ _ _ h4).2, (truthyAt_some _ _ _ h4).1⟩,
            fun hn => Option.noConfusion hn⟩
        | none => exact ⟨fun d hd => Option.noConfusion hd, fun _ => truthyAt_none _ _ h4⟩

theorem datasetIdOf_nil : datasetIdOf [] = none := rfl

theorem lookup_ne_nil (r : Dict) (k : String) (v : Json) (h : lookup r k = some v) :
    r.isEmpty = false := by
  cases r with
  | nil => cases h
  | cons p rest => rfl

theorem datasetIdOf_ne_nil (r : Dict) (d : Json) (h : datasetIdOf r = some d) :
    r.isEmpty = false := by
  cases r with
  | nil => cases h
  | cons p rest => rfl

/-- C1, corrected: the Actor Invoker resolves output through the fixed
chain, but presence of a dataset-id alias counts only when its value is
truthy (non-null, non-empty); likewise an inline `items` field wins only when
its value is not `null`, and a falsy `output.items` value becomes the empty
sequence.  In order: a truthy dataset-id alias causes the dataset fetch, with
an empty (or `None`) fetch resolving to the empty sequence; otherwise a
non-null inline `items` value is returned verbatim (even an empty list);
otherwise an `output` mapping containing an `items` key yields that value,
falsy values becoming the empty sequence; otherwise the empty sequence; and
an absent/null (or empty) run envelope resolves to the empty sequence,
logged as a warning rather than raised. -/
theorem claim_C1 :
    (∀ fetch, call_actor none fetch = Json.arr [])
    ∧ (∀ fetch, call_actor (some []) fetch = Json.arr [])
    ∧ (∀ r fetch d, datasetIdOf r = some d →
        call_actor (some r) fetch = Json.arr ((fetch d).getD []))
    ∧ (∀ r fetch v, datasetIdOf r = none → lookup r "items" = some v → v ≠ Json.null →
        call_actor (some r) fetch = v)
    ∧ (∀ r fetch o, datasetIdOf r = none →
        (lookup r "items" = none ∨ lookup r "items" = some Json.null) →
        lookup r "output" = some (Json.obj o) → hasKey o "items" = true → r.isEmpty = false →
        call_actor (some r) fetch
          = (if pyTruthy (pyGet o "items") then pyGet o "items" else Json.arr []))
    ∧ (∀ r fetch, datasetIdOf r = none →
        (lookup r "items" = none ∨ lookup r "items" = some Json.null) →
        (∀ o, (lookup r "output").getD (Json.obj []) = Json.obj o → hasKey o "items" = false) →
        call_actor (some r) fetch = Json.arr []) := by
  refine ⟨fun fetch => rfl, fun fetch => rfl, ?_, ?_, ?_, ?_⟩
  · intro r fetch d h
    obtain ⟨hc, ht⟩ := (datasetChain_cases r).1 d h
    simp [call_actor, datasetIdOf_ne_nil r d h, hc, ht]
  · intro r fetch v hds hit hv
    have hch := (datasetChain_cases r).2 hds
    have hr := lookup_ne_nil r "items" v hit
    cases v <;> simp_all [call_actor]
  · intro r fetch o hds hit hout hkey hr
    have hch := (datasetChain_cases r).2 hds
    rcases hit with hit | hit <;>
      simp_all [call_actor, callActorOutputBranch, pyOr]
  · intro r fetch hds hit hout
    have hch := (datasetChain_cases r).2 hds
    have hob : callActorOutputBranch r = Json.arr [] := by
      unfold callActorOutputBranch
      cases hl : (lookup r "output").getD (Json.obj []) with
      | obj o => simp [hout o hl]
      | null => rfl
      | bool b => rfl
      | num n => rfl
      | str s => rfl
      | arr l => rfl
    cases hre : r.isEmpty with
    | true => simp [call_actor, hre]
    | false =>
      rcases hit with hit | hit <;> simp_all [call_actor]

/-- C1, the claim as stated is false: in the envelope
`{defaultDatasetId: "", items: [post]}` the alias `defaultDatasetId` is
present, yet the code does not fetch the dataset (the empty string is falsy)
— it returns the inline `items` list instead of the fetched rows. -/
theorem claim_C1_counterexample :
    call_actor (some [("defaultDatasetId", Json.str ""), ("items", Json.arr [Json.str "post"])])
        (fun _ => some [Json.str "dataset-row"])
      = Json.arr [Json.str "post"]
    ∧ lookup [("defaultDatasetId", Json.str ""), ("items", Json.arr [Json.str "post"])]
        "defaultDatasetId" = some (Json.str "")
    ∧ ((some [Json.str "dataset-row"]).getD ([] : List Json)) = [Json.str "dataset-row"]
    ∧ Json.arr [Json.str "post"] ≠ Json.arr [Json.str "dataset-row"] := by
  refine ⟨rfl, rfl, rfl, ?_⟩
  intro h
  injection h with h1
  injection h1 with h2
  injection h2 with h3
  exact absurd (congrArg String.length h3) (by decide)

theorem claim_C1_witness :
    call_actor (some [("defaultDatasetId", Json.str "d1")]) (fun _ => some [Json.num 7])
      = Json.arr [Json.num 7]
    ∧ call_actor (some [("items", Json.arr [])]) (fun _ => none) = Json.arr [] := by
  constructor
  · exact claim_C1.2.2.1 [("defaultDatasetId", Json.str "d1")] _ (Json.str "d1") rfl
  · exact claim_C1.2.2.2.1 [("items", Json.arr [])] _ (Json.arr []) rfl rfl (by intro h; cases h)

/-- On the spec's example targets with proxying disabled, the fan-out run
reduces to: issue the combined call and the `shoes` call, then fall back to a
third invocation exactly when both responses resolved to zero records. -/
theorem instagram_run_example (callA : Dict → List Json) :
    instagram_run exampleTargets 10 true none envOff callA
      = (if !(callA exampleCall1 ++ (callA exampleCall2 ++ [])).isEmpty
         then ([exampleCall1, exampleCall2], callA exampleCall1 ++ (callA exampleCall2 ++ []))
         else ([exampleCall1, exampleCall2, exampleFallback], callA exampleFallback)) := rfl

/-- C2: classification of the spec's example yields the stated buckets, and
whenever at least one of the two fan-out responses is non-empty the run
issues exactly those 2 invocations, concatenating the records in order; but
at the failing input — both remote responses empty — the code issues a third
fallback invocation (3 calls, not 2), because the fallback is guarded by
`if results:` (emptiness of the accumulated records) instead of by the
classification, contradicting the inline comment that reserves it for
targets that were all filtered out. -/
theorem claim_C2 :
    instagram_categorize exampleTargets = ⟨["https://x.com/a"], ["bob"], ["deals"], ["shoes"]⟩
    ∧ (instagram_run exampleTargets 10 true none envOff (fun _ => [])).1.length = 3
    ∧ (∀ callA : Dict → List Json, callA exampleCall1 ≠ [] →
        (instagram_run exampleTargets 10 true none envOff callA).1
          = [exampleCall1, exampleCall2]
        ∧ (instagram_run exampleTargets 10 true none envOff callA).2
          = callA exampleCall1 ++ callA exampleCall2) := by
  refine ⟨rfl, rfl, ?_⟩
  intro callA h
  rw [instagram_run_example]
  cases hc : callA exampleCall1 with
  | nil => exact absurd hc h
  | cons a rest => simp [hc]

theorem claim_C2_witness :
    (instagram_run exampleTargets 10 true none envOff (fun _ => [Json.num 1])).1
      = [exampleCall1, exampleCall2]
    ∧ (instagram_run exampleTargets 10 true none envOff (fun _ => [Json.num 1])).2
      = [Json.num 1, Json.num 1] := by
  have h := claim_C2.2.2 (fun _ => [Json.num 1]) (by intro e; cases e)
  exact ⟨h.1, h.2⟩

end Scraper
